import Mathlib

/-!
Verification of the aggregation pipeline of the sales dashboard (`app.py`).

The source program is a pandas-based dashboard.  The parts the claims are
about are shallowly embedded here:

* `load_data` (`app.py` lines 13-26): per-row normalisation of the raw
  spreadsheet rows — date coercion (`pd.to_datetime(..., errors="coerce")`),
  the category-column default, `after_discount.fillna(0)` for the sales
  value, and `pd.to_numeric(cogs.fillna(0))` (which raises on a non-numeric
  string), plus the derived column `net_profit = sales_value - cogs`.
* `compute_summary` (`app.py` lines 28-48): date-range filter, category
  filter, `groupby("category")` aggregation (pandas drops null keys and
  sorts the remaining keys ascending; the `("id", "count")` aggregate
  counts only non-null ids), `sort_values("sales_value", ascending=False)`,
  the guarded `AOV` column, and the `totals` dict computed from the summary
  frame.  The embedding sorts with a stable sort; pandas' default
  `kind="quicksort"` for `sort_values` is not stable, so the stable model
  fixes one admissible tie order for that step, and no theorem below relies
  on the order of sales-value ties in the summary.
* the module-level top-N truncation `summary.nlargest(top_n, "sales_value")`
  (`app.py` line 78), modelled as `topN`.
* the module-level top-products block (`app.py` lines 167-173), modelled as
  `topProducts`.

Numeric cells are rationals (pandas floats carry exact decimal inputs here),
dates are integers (day numbers), nullable cells are `Option`.
-/

/-- A numeric spreadsheet cell as read by pandas: empty, a number, or a
non-numeric string (which `pd.to_numeric` cannot convert). -/
inductive NumCell where
  | null : NumCell
  | num : Rat → NumCell
  | str : String → NumCell
deriving DecidableEq, Repr

/-- A date cell as read by pandas before `pd.to_datetime`: empty, a valid
date, or an unparseable string. -/
inductive DateCell where
  | null : DateCell
  | date : Int → DateCell
  | invalid : String → DateCell
deriving DecidableEq, Repr

/-- One raw spreadsheet row, before `load_data` normalisation. -/
structure RawRow where
  id : Option Nat
  order_date : DateCell
  category : Option String
  after_discount : Option Rat
  cogs : NumCell
  sku_id : Nat
  sku_name : String
deriving DecidableEq, Repr

/-- One normalised row of the dataframe produced by `load_data`. -/
structure Row where
  id : Option Nat
  order_date : Option Int
  category : Option String
  sales_value : Rat
  cogs : Rat
  net_profit : Rat
  sku_id : Nat
  sku_name : String
deriving DecidableEq, Repr

/-- `pd.to_datetime(col, errors="coerce")`: unparseable or missing dates
become null (`NaT`). -/
def coerceDate : DateCell → Option Int
  | DateCell.date d => some d
  | _ => none

/-- `pd.to_numeric(cell.fillna(0))`: a missing cell was already filled with
0, a numeric cell converts, and a non-numeric string raises `ValueError`. -/
def parseCogs : NumCell → Except String Rat
  | NumCell.null => Except.ok 0
  | NumCell.num q => Except.ok q
  | NumCell.str s => Except.error ("Unable to parse string " ++ s)

/-- Normalisation of one row by `load_data`.  `hasCatCol` records whether the
spreadsheet has a `category` column at all: the source only writes
`"Unknown"` when the whole column is absent (`if "category" not in
df.columns`); when the column exists, a missing value in it is left null. -/
def load_row (hasCatCol : Bool) (r : RawRow) : Except String Row := do
  let c ← parseCogs r.cogs
  let sales := r.after_discount.getD 0
  Except.ok
    { id := r.id
      order_date := coerceDate r.order_date
      category := if hasCatCol then r.category else some "Unknown"
      sales_value := sales
      cogs := c
      net_profit := sales - c
      sku_id := r.sku_id
      sku_name := r.sku_name }

/-- `load_data` over the whole spreadsheet: the first non-numeric `cogs`
cell aborts the load with the `pd.to_numeric` error. -/
def load_data (hasCatCol : Bool) (rows : List RawRow) : Except String (List Row) :=
  rows.mapM (load_row hasCatCol)

/-- Stable insertion into a list ordered by the boolean relation `le`;
an incoming element goes before the first element it `le`-relates to, so
earlier elements stay before later tied ones. -/
def insertBy (le : α → α → Bool) (x : α) : List α → List α
  | [] => [x]
  | y :: ys => if le x y then x :: y :: ys else y :: insertBy le x ys

/-- Stable insertion sort by the boolean relation `le`.  Models the pandas
sort steps: exact for `groupby`'s ascending key sort (distinct keys, so
stability is moot) and for `nlargest(..., keep="first")` (documented to
prioritise first occurrences among ties); for
`sort_values(..., kind="quicksort")`, which is not stable, it fixes one
admissible order of ties, and no theorem here depends on that tie order. -/
def sortBy (le : α → α → Bool) : List α → List α
  | [] => []
  | x :: xs => insertBy le x (sortBy le xs)

/-- One row of the grouped frame produced by
`d.groupby("category").agg(...)` before the `AOV` column is added. -/
structure CatAgg where
  category : String
  sales_value : Rat
  net_profit : Rat
  transactions : Nat
deriving DecidableEq, Repr

/-- One row of the final summary frame, with the `AOV` column. -/
structure CategorySummary where
  category : String
  sales_value : Rat
  net_profit : Rat
  transactions : Nat
  aov : Rat
deriving DecidableEq, Repr

/-- The `totals` dict of `compute_summary`. -/
structure Totals where
  total_sales : Rat
  total_profit : Rat
  avg_aov : Rat
  transactions : Nat
deriving DecidableEq, Repr

/-- The date-range filter of `compute_summary`:
`if start_date: d = d[d["order_date"] >= start_date]` and likewise for
`end_date`.  A null (`NaT`) date compares false against any bound, and an
absent bound skips its filter entirely. -/
def dateFilter (s e : Option Int) (rows : List Row) : List Row :=
  let d1 := match s with
    | none => rows
    | some a => rows.filter fun r =>
        match r.order_date with
        | some d => decide (a ≤ d)
        | none => false
  match e with
  | none => d1
  | some b => d1.filter fun r =>
      match r.order_date with
      | some d => decide (d ≤ b)
      | none => false

/-- The category filter of `compute_summary`:
`if selected_categories and len(selected_categories) > 0: d =
d[d["category"].isin(selected_categories)]`.  `isin` is false on a null
category. -/
def categoryFilter (sel : List String) (rows : List Row) : List Row :=
  if sel.isEmpty then rows
  else rows.filter fun r =>
    match r.category with
    | some c => sel.contains c
    | none => false

/-- Ascending comparison on category labels, for the `groupby` key sort.
It decides the lexicographic order on the label's characters, which is
exactly the order `≤` on `String` (see `strLe_iff`). -/
def strLe (a b : String) : Bool := decide (a.data ≤ b.data)

/-- The group keys of `d.groupby("category")`: the distinct non-null
category labels, sorted ascending (pandas `groupby` drops null keys and
sorts the remaining keys). -/
def groupKeys (rows : List Row) : List String :=
  sortBy strLe (rows.filterMap Row.category).dedup

/-- The aggregates of one `groupby("category")` group: summed sales value,
summed net profit, and the `("id", "count")` transaction count, which counts
only rows whose `id` is non-null. -/
def aggCategory (rows : List Row) (c : String) : CatAgg :=
  let g := rows.filter fun r => decide (r.category = some c)
  { category := c
    sales_value := (g.map Row.sales_value).sum
    net_profit := (g.map Row.net_profit).sum
    transactions := g.countP fun r => r.id.isSome }

/-- The grouped frame `d.groupby("category").agg(...).reset_index()`. -/
def groupRows (rows : List Row) : List CatAgg :=
  (groupKeys rows).map (aggCategory rows)

/-- Descending-by-sales comparison used for
`sort_values("sales_value", ascending=False)` on the grouped frame. -/
def salesDescCat (a b : CatAgg) : Bool := decide (b.sales_value ≤ a.sales_value)

/-- The `AOV` column:
`np.where(summary["transactions"]>0, sales_value / transactions, 0)`. -/
def addAOV (g : CatAgg) : CategorySummary :=
  { category := g.category
    sales_value := g.sales_value
    net_profit := g.net_profit
    transactions := g.transactions
    aov := if 0 < g.transactions then g.sales_value / (g.transactions : Rat) else 0 }

/-- The `totals` dict: sums of the summary columns, and
`summary["AOV"].mean() if len(summary)>0 else 0`. -/
def mkTotals (summary : List CategorySummary) : Totals :=
  { total_sales := (summary.map CategorySummary.sales_value).sum
    total_profit := (summary.map CategorySummary.net_profit).sum
    avg_aov :=
      if 0 < summary.length then
        (summary.map CategorySummary.aov).sum / (summary.length : Rat)
      else 0
    transactions := (summary.map CategorySummary.transactions).sum }

/-- `compute_summary(df, start_date, end_date, selected_categories)`:
date filter, category filter, group by category, sort descending by sales
value, add the guarded AOV column, and compute the totals from the summary
frame.  An empty `sel` means no category restriction (the truthiness test in
the source). -/
def compute_summary (rows : List Row) (s e : Option Int) (sel : List String) :
    List CategorySummary × Totals :=
  let d := categoryFilter sel (dateFilter s e rows)
  let summary := (sortBy salesDescCat (groupRows d)).map addAOV
  (summary, mkTotals summary)

/-- Descending-by-sales comparison on summary rows, for `nlargest`. -/
def salesDescSum (a b : CategorySummary) : Bool :=
  decide (b.sales_value ≤ a.sales_value)

/-- The module-level truncation `summary.nlargest(top_n, "sales_value")`:
order descending by sales value, keeping earlier rows first among ties
(`keep="first"`), and take the first `n` rows. -/
def topN (summary : List CategorySummary) (n : Nat) : List CategorySummary :=
  (sortBy salesDescSum summary).take n

/-- One row of the top-products frame. -/
structure ProductSummary where
  sku_id : Nat
  sku_name : String
  sales_value : Rat
  transactions : Nat
deriving DecidableEq, Repr

/-- Ascending lexicographic comparison on `(sku_id, sku_name)` keys, for the
`groupby(["sku_id", "sku_name"])` key sort. -/
def prodKeyLe (a b : Nat × String) : Bool :=
  decide (a.1 < b.1 ∨ (a.1 = b.1 ∧ a.2.data ≤ b.2.data))

/-- The distinct `(sku_id, sku_name)` group keys, sorted ascending. -/
def prodKeys (rows : List Row) : List (Nat × String) :=
  sortBy prodKeyLe (rows.map fun r => (r.sku_id, r.sku_name)).dedup

/-- The aggregates of one product group: summed sales value and the
`("id", "count")` transaction count. -/
def aggProduct (rows : List Row) (k : Nat × String) : ProductSummary :=
  let g := rows.filter fun r => decide (r.sku_id = k.1 ∧ r.sku_name = k.2)
  { sku_id := k.1
    sku_name := k.2
    sales_value := (g.map Row.sales_value).sum
    transactions := g.countP fun r => r.id.isSome }

/-- Descending-by-sales comparison on product rows. -/
def salesDescProd (a b : ProductSummary) : Bool :=
  decide (b.sales_value ≤ a.sales_value)

/-- The module-level top-products block (`app.py` lines 167-173): category
filter only (no date filter), group by `(sku_id, sku_name)`, sum sales and
count transactions, sort descending by sales value, `head(10)`. -/
def topProducts (rows : List Row) (sel : List String) : List ProductSummary :=
  let p := categoryFilter sel rows
  (sortBy salesDescProd ((prodKeys p).map (aggProduct p))).take 10

/-- Written from the spec's words for claim C5, to be compared with
`dateFilter`: a row is kept exactly when its `order_date` lies within
`[filter.start, filter.end]` with both bounds inclusive, where an absent
bound imposes no restriction and a null date is excluded whenever a bound
is supplied. -/
def specInRange (s e : Option Int) (r : Row) : Bool :=
  match r.order_date with
  | some d =>
      (match s with
       | none => true
       | some a => decide (a ≤ d)) &&
      (match e with
       | none => true
       | some b => decide (d ≤ b))
  | none => s.isNone && e.isNone

/-- Replace a row's order date, leaving every other field unchanged; used
to state that `topProducts` applies no date filter. -/
def setDate (f : Option Int → Option Int) (r : Row) : Row :=
  { r with order_date := f r.order_date }

/-- The all-zero totals record. -/
def zeroTotals : Totals :=
  { total_sales := 0, total_profit := 0, avg_aov := 0, transactions := 0 }

/-- A convenience constructor for fixture rows. -/
def mkRow (id : Option Nat) (d : Option Int) (c : Option String) (s q : Rat) : Row :=
  { id := id
    order_date := d
    category := c
    sales_value := s
    cogs := q
    net_profit := s - q
    sku_id := 1
    sku_name := "p" }

/-- The three-row fixture of the spec's first scenario: categories `A`
(transactions 1 and 2) and `B` (transaction 3). -/
def demoRows : List Row :=
  [ mkRow (some 1) (some 5) (some "A") 100 40,
    mkRow (some 2) (some 41) (some "A") 50 10,
    mkRow (some 3) (some 20) (some "B") 200 150 ]

/-- A fixture with one null-id row: category `A` has two surviving rows but
only one counted transaction. -/
def c10rows : List Row :=
  [ mkRow none (some 1) (some "A") 4 1,
    mkRow (some 7) (some 2) (some "A") 6 2 ]

/-- A raw fixture row whose `cogs` cell holds a non-numeric string. -/
def rawBadCogs : RawRow :=
  { id := some 1
    order_date := DateCell.date 0
    category := some "A"
    after_discount := some 10
    cogs := NumCell.str "oops"
    sku_id := 1
    sku_name := "p" }

/-- A raw fixture row with a missing category, missing sales value, missing
cogs, and an unparseable date. -/
def rawNullCat : RawRow :=
  { id := some 2
    order_date := DateCell.invalid "not-a-date"
    category := none
    after_discount := none
    cogs := NumCell.null
    sku_id := 1
    sku_name := "p" }

/-! ### Generic facts about the stable insertion sort `sortBy` -/

theorem mem_insertBy (le : α → α → Bool) (x : α) (l : List α) (z : α) :
    z ∈ insertBy le x l ↔ z = x ∨ z ∈ l := by
  induction l with
  | nil => simp [insertBy]
  | cons y ys ih =>
    by_cases h : le x y
    · simp [insertBy, h]
    · simp only [insertBy, if_neg h, List.mem_cons, ih]
      tauto

theorem insertBy_perm (le : α → α → Bool) (x : α) (l : List α) :
    (insertBy le x l).Perm (x :: l) := by
  induction l with
  | nil => exact List.Perm.refl _
  | cons y ys ih =>
    by_cases h : le x y
    · simp [insertBy, h]
    · simp only [insertBy, if_neg h]
      exact (ih.cons y).trans (List.Perm.swap x y ys)

theorem sortBy_perm (le : α → α → Bool) (l : List α) : (sortBy le l).Perm l := by
  induction l with
  | nil => exact List.Perm.refl _
  | cons x xs ih => exact (insertBy_perm le x (sortBy le xs)).trans (ih.cons x)

theorem insertBy_sorted {le : α → α → Bool}
    (htrans : ∀ a b c, le a b = true → le b c = true → le a c = true)
    (htot : ∀ a b, le a b = true ∨ le b a = true)
    (x : α) {l : List α} (hs : l.Pairwise fun a b => le a b = true) :
    (insertBy le x l).Pairwise fun a b => le a b = true := by
  induction l with
  | nil => simp [insertBy]
  | cons y ys ih =>
    rw [List.pairwise_cons] at hs
    by_cases h : le x y
    · simp only [insertBy, if_pos h]
      rw [List.pairwise_cons]
      refine ⟨?_, List.pairwise_cons.mpr hs⟩
      intro z hz
      rcases List.mem_cons.mp hz with rfl | hz
      · exact h
      · exact htrans x y z h (hs.1 z hz)
    · simp only [insertBy, if_neg h]
      rw [List.pairwise_cons]
      refine ⟨?_, ih hs.2⟩
      intro z hz
      rcases (mem_insertBy le x ys z).mp hz with rfl | hz
      · rcases htot z y with h' | h'
        · exact absurd h' h
        · exact h'
      · exact hs.1 z hz

theorem sortBy_sorted {le : α → α → Bool}
    (htrans : ∀ a b c, le a b = true → le b c = true → le a c = true)
    (htot : ∀ a b, le a b = true ∨ le b a = true)
    (l : List α) : (sortBy le l).Pairwise fun a b => le a b = true := by
  induction l with
  | nil => simp [sortBy]
  | cons x xs ih => exact insertBy_sorted htrans htot x ih

theorem sortBy_of_sorted {le : α → α → Bool} {l : List α}
    (hs : l.Pairwise fun a b => le a b = true) : sortBy le l = l := by
  induction l with
  | nil => rfl
  | cons x xs ih =>
    rw [List.pairwise_cons] at hs
    show insertBy le x (sortBy le xs) = x :: xs
    rw [ih hs.2]
    cases xs with
    | nil => rfl
    | cons y ys => simp [insertBy, hs.1 y (List.mem_cons_self y ys)]

/-! ### The concrete comparison relations are transitive and total -/

theorem strLe_iff (a b : String) : strLe a b = true ↔ a ≤ b := by
  rw [String.le_iff_toList_le]
  constructor
  · intro h
    have h2 : a.toList ≤ b.toList := of_decide_eq_true h
    exact h2
  · intro h
    have h2 : a.data ≤ b.data := h
    exact decide_eq_true h2

theorem strLe_trans : ∀ a b c, strLe a b = true → strLe b c = true → strLe a c = true := by
  intro a b c hab hbc
  exact (strLe_iff a c).mpr (le_trans ((strLe_iff a b).mp hab) ((strLe_iff b c).mp hbc))

theorem strLe_total : ∀ a b, strLe a b = true ∨ strLe b a = true := by
  intro a b
  rcases le_total a b with h | h
  · exact Or.inl ((strLe_iff a b).mpr h)
  · exact Or.inr ((strLe_iff b a).mpr h)

theorem salesDescCat_trans :
    ∀ a b c, salesDescCat a b = true → salesDescCat b c = true → salesDescCat a c = true := by
  intro a b c hab hbc
  exact decide_eq_true (le_trans (of_decide_eq_true hbc) (of_decide_eq_true hab))

theorem salesDescCat_total : ∀ a b, salesDescCat a b = true ∨ salesDescCat b a = true := by
  intro a b
  rcases le_total b.sales_value a.sales_value with h | h
  · exact Or.inl (decide_eq_true h)
  · exact Or.inr (decide_eq_true h)

theorem salesDescSum_trans :
    ∀ a b c, salesDescSum a b = true → salesDescSum b c = true → salesDescSum a c = true := by
  intro a b c hab hbc
  exact decide_eq_true (le_trans (of_decide_eq_true hbc) (of_decide_eq_true hab))

theorem salesDescSum_total : ∀ a b, salesDescSum a b = true ∨ salesDescSum b a = true := by
  intro a b
  rcases le_total b.sales_value a.sales_value with h | h
  · exact Or.inl (decide_eq_true h)
  · exact Or.inr (decide_eq_true h)

theorem salesDescProd_trans :
    ∀ a b c, salesDescProd a b = true → salesDescProd b c = true → salesDescProd a c = true := by
  intro a b c hab hbc
  exact decide_eq_true (le_trans (of_decide_eq_true hbc) (of_decide_eq_true hab))

theorem salesDescProd_total : ∀ a b, salesDescProd a b = true ∨ salesDescProd b a = true := by
  intro a b
  rcases le_total b.sales_value a.sales_value with h | h
  · exact Or.inl (decide_eq_true h)
  · exact Or.inr (decide_eq_true h)

theorem dataLe_iff (a b : String) : a.data ≤ b.data ↔ a ≤ b := by
  rw [String.le_iff_toList_le]
  constructor
  · intro h
    exact h
  · intro h
    exact h

theorem prodKeyLe_trans :
    ∀ a b c, prodKeyLe a b = true → prodKeyLe b c = true → prodKeyLe a c = true := by
  intro a b c hab hbc
  have hab' := of_decide_eq_true hab
  have hbc' := of_decide_eq_true hbc
  refine decide_eq_true ?_
  rcases hab' with h1 | ⟨h1, h1'⟩ <;> rcases hbc' with h2 | ⟨h2, h2'⟩
  · exact Or.inl (lt_trans h1 h2)
  · exact Or.inl (h2 ▸ h1)
  · exact Or.inl (h1 ▸ h2)
  · exact Or.inr ⟨h1.trans h2,
      (dataLe_iff _ _).mpr (le_trans ((dataLe_iff _ _).mp h1') ((dataLe_iff _ _).mp h2'))⟩

theorem prodKeyLe_total : ∀ a b, prodKeyLe a b = true ∨ prodKeyLe b a = true := by
  intro a b
  rcases lt_trichotomy a.1 b.1 with h | h | h
  · exact Or.inl (decide_eq_true (Or.inl h))
  · rcases le_total a.2 b.2 with h' | h'
    · exact Or.inl (decide_eq_true (Or.inr ⟨h, (dataLe_iff _ _).mpr h'⟩))
    · exact Or.inr (decide_eq_true (Or.inr ⟨h.symm, (dataLe_iff _ _).mpr h'⟩))
  · exact Or.inr (decide_eq_true (Or.inl h))

/-! ### The date filter kept-row characterisation -/

theorem dateFilter_eq_filter (s e : Option Int) (rows : List Row) :
    dateFilter s e rows = rows.filter (specInRange s e) := by
  cases s with
  | none =>
    cases e with
    | none =>
      simp only [dateFilter]
      refine (List.filter_eq_self.mpr ?_).symm
      intro r _
      cases hr : r.order_date <;> simp [specInRange, hr]
    | some b =>
      simp only [dateFilter]
      refine List.filter_congr ?_
      intro r _
      cases hr : r.order_date <;> simp [specInRange, hr]
  | some a =>
    cases e with
    | none =>
      simp only [dateFilter]
      refine List.filter_congr ?_
      intro r _
      cases hr : r.order_date <;> simp [specInRange, hr]
    | some b =>
      simp only [dateFilter, List.filter_filter]
      refine List.filter_congr ?_
      intro r _
      cases hr : r.order_date <;> simp [specInRange, hr, Bool.and_comm]

/-! ### Claim theorems -/

/-- C1: for every dataset and filter, the Totals returned by
`compute_summary` satisfy: `total_sales` equals the sum of `sales_value`
over all returned category rows, `total_profit` equals the sum of
`net_profit`, and `transactions` equals the sum of the per-category
transaction counts.  The totals are computed from the full summary inside
`compute_summary`; the top-N truncation (`nlargest`) happens only
afterwards, outside this function. -/
theorem totals_are_summary_sums (rows : List Row) (s e : Option Int) (sel : List String) :
    (compute_summary rows s e sel).2.total_sales
        = ((compute_summary rows s e sel).1.map CategorySummary.sales_value).sum
    ∧ (compute_summary rows s e sel).2.total_profit
        = ((compute_summary rows s e sel).1.map CategorySummary.net_profit).sum
    ∧ (compute_summary rows s e sel).2.transactions
        = ((compute_summary rows s e sel).1.map CategorySummary.transactions).sum :=
  ⟨rfl, rfl, rfl⟩

/-- C2: `Totals.avg_aov` is the unweighted arithmetic mean of the
per-category AOV values (0 when there are no categories), and on the
three-row fixture with uneven transaction counts it differs from the ratio
`total_sales / transactions` (137.5 versus 350/3). -/
theorem avg_aov_is_mean_of_category_aov (rows : List Row) (s e : Option Int)
    (sel : List String) :
    ((compute_summary rows s e sel).2.avg_aov
        = if 0 < (compute_summary rows s e sel).1.length
          then ((compute_summary rows s e sel).1.map CategorySummary.aov).sum
                / ((compute_summary rows s e sel).1.length : Rat)
          else 0)
    ∧ (compute_summary demoRows none none []).2.avg_aov
        ≠ (compute_summary demoRows none none []).2.total_sales
            / ((compute_summary demoRows none none []).2.transactions : Rat) :=
  ⟨rfl, by with_unfolding_all decide⟩

/-- C3 (claim refuted by the code): the loader does not default a row-level
missing category to `"Unknown"` (only a missing category column gets the
default), and a non-numeric `cogs` cell is surfaced as an error by
`pd.to_numeric` instead of defaulting to 0.  Missing sales value and missing
cogs do default to 0 as claimed. -/
theorem load_data_dirty_field_behavior :
    load_data true [rawBadCogs] = Except.error "Unable to parse string oops"
    ∧ (load_data true [rawNullCat]).map (List.map Row.category) = Except.ok [none]
    ∧ (load_data false [rawNullCat]).map (List.map Row.category)
        = Except.ok [some "Unknown"]
    ∧ (load_data true [rawNullCat]).map (List.map Row.sales_value) = Except.ok [0]
    ∧ (load_data true [rawNullCat]).map (List.map Row.cogs) = Except.ok [0]
    ∧ (load_data true [rawNullCat]).map (List.map Row.order_date) = Except.ok [none] :=
  ⟨rfl, rfl, rfl, rfl, rfl, rfl⟩

/-- C5: `compute_summary` retains exactly the rows whose order date lies in
the inclusive `[start, end]` range: the embedded date filter equals a plain
filter by the spec-side predicate `specInRange` (a null/unparseable date is
excluded whenever a bound is supplied; an absent bound restricts nothing),
and the summary computed from the original rows equals the one computed
from the spec-filtered rows with no date bounds. -/
theorem date_filter_keeps_exactly_range (rows : List Row) (s e : Option Int)
    (sel : List String) :
    dateFilter s e rows = rows.filter (specInRange s e)
    ∧ compute_summary rows s e sel
        = compute_summary (rows.filter (specInRange s e)) none none sel := by
  refine ⟨dateFilter_eq_filter s e rows, ?_⟩
  rw [← dateFilter_eq_filter s e rows]
  rfl

/-- C6: every returned category row has a guarded AOV: sales value divided
by the transaction count when the count is positive, and exactly 0 when it
is zero; division is total on `Rat`, so no NaN/undefined value exists. -/
theorem category_aov_guarded (rows : List Row) (s e : Option Int)
    (sel : List String) (g : CategorySummary)
    (hg : g ∈ (compute_summary rows s e sel).1) :
    g.aov = if 0 < g.transactions then g.sales_value / (g.transactions : Rat) else 0 := by
  have hg' : g ∈ (sortBy salesDescCat
      (groupRows (categoryFilter sel (dateFilter s e rows)))).map addAOV := hg
  obtain ⟨g', _, rfl⟩ := List.mem_map.mp hg'
  rfl

/-- Witness for C6 at the three-row fixture: category B has one transaction
and AOV 200. -/
theorem category_aov_guarded_witness :
    (⟨"B", 200, 50, 1, 200⟩ : CategorySummary).aov
      = if 0 < (⟨"B", 200, 50, 1, 200⟩ : CategorySummary).transactions
        then (⟨"B", 200, 50, 1, 200⟩ : CategorySummary).sales_value
              / ((⟨"B", 200, 50, 1, 200⟩ : CategorySummary).transactions : Rat)
        else 0 :=
  category_aov_guarded demoRows none none [] _ (by with_unfolding_all decide)

/-- C7: whenever the combined filter matches zero rows — in particular on
the empty dataset, for every filter — `compute_summary` returns the empty
summary and the all-zero totals; the embedded pipeline is a total function,
so no exception can occur. -/
theorem empty_filter_zero_totals (rows : List Row) (s e : Option Int)
    (sel : List String) (h : categoryFilter sel (dateFilter s e rows) = []) :
    compute_summary rows s e sel = ([], zeroTotals) := by
  have hb : compute_summary rows s e sel
      = ((sortBy salesDescCat
            (groupRows (categoryFilter sel (dateFilter s e rows)))).map addAOV,
          mkTotals ((sortBy salesDescCat
            (groupRows (categoryFilter sel (dateFilter s e rows)))).map addAOV)) := rfl
  rw [hb, h]
  rfl

/-- Witness for C7: the empty dataset under a fully specified filter. -/
theorem empty_filter_zero_totals_witness :
    compute_summary [] (some 0) (some 1) ["A"] = ([], zeroTotals) :=
  empty_filter_zero_totals [] (some 0) (some 1) ["A"] rfl

/-! ### Date-blindness of the top-products block -/

theorem categoryFilter_map_setDate (sel : List String) (f : Option Int → Option Int)
    (rows : List Row) :
    categoryFilter sel (rows.map (setDate f)) = (categoryFilter sel rows).map (setDate f) := by
  unfold categoryFilter
  by_cases hsel : sel.isEmpty
  · simp [hsel]
  · simp only [hsel, if_false, Bool.false_eq_true]
    rw [List.filter_map]
    rfl

theorem prodKeys_map_setDate (f : Option Int → Option Int) (p : List Row) :
    prodKeys (p.map (setDate f)) = prodKeys p := by
  unfold prodKeys
  rw [List.map_map]
  rfl

theorem aggProduct_map_setDate (f : Option Int → Option Int) (p : List Row)
    (k : Nat × String) :
    aggProduct (p.map (setDate f)) k = aggProduct p k := by
  simp only [aggProduct, List.filter_map, List.map_map, List.countP_map]
  rfl

theorem topProducts_map_setDate (rows : List Row) (sel : List String)
    (f : Option Int → Option Int) :
    topProducts (rows.map (setDate f)) sel = topProducts rows sel := by
  simp only [topProducts]
  rw [categoryFilter_map_setDate sel f rows,
    prodKeys_map_setDate f (categoryFilter sel rows)]
  have hmap : (prodKeys (categoryFilter sel rows)).map
        (aggProduct ((categoryFilter sel rows).map (setDate f)))
      = (prodKeys (categoryFilter sel rows)).map (aggProduct (categoryFilter sel rows)) :=
    List.map_congr_left fun k _ => aggProduct_map_setDate f _ k
  rw [hmap]

/-- C8: `topProducts` applies only the category filter — changing every
row's order date arbitrarily leaves its output unchanged — groups the
surviving rows by the `(sku_id, sku_name)` pair with summed sales value and
non-null-id transaction counts, is sorted descending by sales value, and
returns at most 10 entries. -/
theorem topProducts_spec (rows : List Row) (sel : List String)
    (f : Option Int → Option Int) :
    topProducts (rows.map (setDate f)) sel = topProducts rows sel
    ∧ (topProducts rows sel).length ≤ 10
    ∧ (topProducts rows sel).Pairwise (fun a b => b.sales_value ≤ a.sales_value)
    ∧ ∀ g ∈ topProducts rows sel,
        g.sales_value = (((categoryFilter sel rows).filter
            (fun r => decide (r.sku_id = g.sku_id ∧ r.sku_name = g.sku_name))).map
              Row.sales_value).sum
        ∧ g.transactions = ((categoryFilter sel rows).filter
            (fun r => decide (r.sku_id = g.sku_id ∧ r.sku_name = g.sku_name))).countP
              (fun r => r.id.isSome) := by
  refine ⟨topProducts_map_setDate rows sel f, ?_, ?_, ?_⟩
  · exact List.length_take_le 10 _
  · show ((sortBy salesDescProd ((prodKeys (categoryFilter sel rows)).map
        (aggProduct (categoryFilter sel rows)))).take 10).Pairwise _
    refine List.Pairwise.sublist (List.take_sublist 10 _) ?_
    exact (sortBy_sorted salesDescProd_trans salesDescProd_total _).imp
      fun h => of_decide_eq_true h
  · intro g hg
    have hg1 : g ∈ sortBy salesDescProd ((prodKeys (categoryFilter sel rows)).map
        (aggProduct (categoryFilter sel rows))) :=
      (List.take_sublist 10 _).subset hg
    have hg2 := (sortBy_perm _ _).mem_iff.mp hg1
    obtain ⟨k, _, rfl⟩ := List.mem_map.mp hg2
    exact ⟨rfl, rfl⟩

/-- Witness for C8 at the three-row fixture: the single product group. -/
theorem topProducts_spec_witness :
    (⟨1, "p", 350, 3⟩ : ProductSummary).sales_value
        = (((categoryFilter [] demoRows).filter
            (fun r => decide (r.sku_id = (⟨1, "p", 350, 3⟩ : ProductSummary).sku_id
              ∧ r.sku_name = (⟨1, "p", 350, 3⟩ : ProductSummary).sku_name))).map
              Row.sales_value).sum
    ∧ (⟨1, "p", 350, 3⟩ : ProductSummary).transactions
        = ((categoryFilter [] demoRows).filter
            (fun r => decide (r.sku_id = (⟨1, "p", 350, 3⟩ : ProductSummary).sku_id
              ∧ r.sku_name = (⟨1, "p", 350, 3⟩ : ProductSummary).sku_name))).countP
              (fun r => r.id.isSome) :=
  (topProducts_spec demoRows [] id).2.2.2 ⟨1, "p", 350, 3⟩
    (by with_unfolding_all decide)

/-- C9: `topN` (the `nlargest` truncation) is idempotent — applying it twice
with the same positive `n` equals applying it once — and on an
already-summarized input (sorted descending by sales value, as
`compute_summary` returns it) with `n` at least the length it returns the
full summary unchanged. -/
theorem topN_idempotent_and_full (s : List CategorySummary) (n : Nat) (_hn : 0 < n) :
    topN (topN s n) n = topN s n
    ∧ ((s.Pairwise fun a b => b.sales_value ≤ a.sales_value) →
        s.length ≤ n → topN s n = s) := by
  constructor
  · show (sortBy salesDescSum ((sortBy salesDescSum s).take n)).take n
        = (sortBy salesDescSum s).take n
    have hsorted : ((sortBy salesDescSum s).take n).Pairwise
        fun a b => salesDescSum a b = true :=
      List.Pairwise.sublist (List.take_sublist n _)
        (sortBy_sorted salesDescSum_trans salesDescSum_total s)
    rw [sortBy_of_sorted hsorted, List.take_take, min_self]
  · intro hs hlen
    show (sortBy salesDescSum s).take n = s
    have hs2 : s.Pairwise fun a b => salesDescSum a b = true :=
      hs.imp fun h => decide_eq_true h
    rw [sortBy_of_sorted hs2]
    exact List.take_of_length_le hlen

/-- Witness for C9 at the three-row fixture's summary with n = 2. -/
theorem topN_idempotent_and_full_witness :
    topN (topN (compute_summary demoRows none none []).1 2) 2
        = topN (compute_summary demoRows none none []).1 2
    ∧ topN (compute_summary demoRows none none []).1 2
        = (compute_summary demoRows none none []).1 := by
  obtain ⟨h1, h2⟩ :=
    topN_idempotent_and_full (compute_summary demoRows none none []).1 2 (by decide)
  exact ⟨h1, h2 (by with_unfolding_all decide) (by with_unfolding_all decide)⟩

/-- C10: the transaction count of each returned category row counts only
surviving rows of that category whose id is non-null; on the two-row
fixture with one null id the counted transactions (1) are strictly fewer
than the surviving rows of the category (2). -/
theorem transactions_count_nonnull_ids (rows : List Row) (s e : Option Int)
    (sel : List String) (g : CategorySummary)
    (hg : g ∈ (compute_summary rows s e sel).1) :
    (g.transactions
        = ((categoryFilter sel (dateFilter s e rows)).filter
            (fun r => decide (r.category = some g.category))).countP
              (fun r => r.id.isSome))
    ∧ ((compute_summary c10rows none none []).1.map CategorySummary.transactions).sum
        < ((categoryFilter [] (dateFilter none none c10rows)).filter
            (fun r => decide (r.category = some "A"))).length := by
  constructor
  · have hg' : g ∈ (sortBy salesDescCat
        (groupRows (categoryFilter sel (dateFilter s e rows)))).map addAOV := hg
    obtain ⟨g', hg'', rfl⟩ := List.mem_map.mp hg'
    have hmem : g' ∈ groupRows (categoryFilter sel (dateFilter s e rows)) :=
      (sortBy_perm _ _).mem_iff.mp hg''
    obtain ⟨c, _, rfl⟩ := List.mem_map.mp hmem
    rfl
  · with_unfolding_all decide

/-- Witness for C10 at the null-id fixture's single summary row. -/
theorem transactions_count_nonnull_ids_witness :
    ((⟨"A", 10, 7, 1, 10⟩ : CategorySummary).transactions
        = ((categoryFilter [] (dateFilter none none c10rows)).filter
            (fun r => decide (r.category
              = some (⟨"A", 10, 7, 1, 10⟩ : CategorySummary).category))).countP
              (fun r => r.id.isSome))
    ∧ ((compute_summary c10rows none none []).1.map CategorySummary.transactions).sum
        < ((categoryFilter [] (dateFilter none none c10rows)).filter
            (fun r => decide (r.category = some "A"))).length :=
  transactions_count_nonnull_ids c10rows none none [] ⟨"A", 10, 7, 1, 10⟩
    (by with_unfolding_all decide)
